import Mathlib

/-!
Verification of the audio-recorder repository (GUI front-end
`audio_recorder.py`, CLI front-end `audio_recorder_cli.py`).

Shallow embedding conventions:
* audio samples are modelled as rationals (the code captures 32-bit floats;
  the properties checked here are exact-arithmetic properties of the
  scaling/truncation/cast pipeline);
* a block delivered by one driver-callback invocation is a flat list of
  interleaved samples;
* numpy's elementwise `np.int16(a * 32767)` is modelled sample-by-sample:
  the float product is truncated toward zero (C cast semantics) and the
  resulting integer is reduced into the 16-bit two's-complement range
  modulo 2^16.
-/

/-- A block of interleaved float samples from one callback invocation. -/
abbrev Block := List ℚ

/-- Truncation toward zero of a rational, the rounding performed by the
C-style float→int conversion inside `np.int16(...)`. -/
def truncZ (q : ℚ) : ℤ := if 0 ≤ q then ⌊q⌋ else ⌈q⌉

/-- Reduction of an integer into the `int16` range `[-32768, 32767]` by
wrapping modulo 2^16, the behaviour of numpy's cast for out-of-range
values (two's-complement truncation, no saturation). -/
def int16cast (n : ℤ) : ℤ := (n + 32768) % 65536 - 32768

/-- One sample of `np.int16(audio * 32767)`
(`audio_recorder.py` line 360, `audio_recorder_cli.py` lines 287/322):
scale by 32767, truncate toward zero, cast to 16-bit. -/
def quantizeSample (x : ℚ) : ℤ := int16cast (truncZ (x * 32767))

/-- Elementwise quantization of a whole buffer, as the numpy expression
applies to the concatenated recording. -/
def quantizeBuffer (xs : List ℚ) : List ℤ := xs.map quantizeSample

lemma truncZ_nonneg_eq (q : ℚ) (h : 0 ≤ q) : truncZ q = ⌊q⌋ := by
  simp [truncZ, h]

lemma truncZ_neg_eq (q : ℚ) (h : ¬ 0 ≤ q) : truncZ q = ⌈q⌉ := by
  simp [truncZ, h]

lemma int16cast_eq_of_mem (n : ℤ) (h1 : -32768 ≤ n) (h2 : n ≤ 32767) :
    int16cast n = n := by
  unfold int16cast
  omega

lemma truncZ_bound (x : ℚ) (h1 : -1 ≤ x) (h2 : x ≤ 1) :
    -32767 ≤ truncZ (x * 32767) ∧ truncZ (x * 32767) ≤ 32767 := by
  by_cases h : 0 ≤ x * 32767
  · rw [truncZ_nonneg_eq _ h]
    constructor
    · have : (0:ℤ) ≤ ⌊x * 32767⌋ := Int.floor_nonneg.mpr h
      omega
    · have hle : x * 32767 ≤ ((32767:ℤ) : ℚ) := by
        push_cast
        nlinarith
      calc ⌊x * 32767⌋ ≤ ⌊((32767:ℤ) : ℚ)⌋ := Int.floor_le_floor hle
        _ = 32767 := Int.floor_intCast _
  · rw [truncZ_neg_eq _ h]
    push_neg at h
    constructor
    · have hge : ((-32767:ℤ) : ℚ) ≤ x * 32767 := by
        push_cast
        nlinarith
      calc (-32767 : ℤ) = ⌈((-32767:ℤ) : ℚ)⌉ := (Int.ceil_intCast _).symm
        _ ≤ ⌈x * 32767⌉ := Int.ceil_le_ceil hge
    · have : ⌈x * 32767⌉ ≤ (0:ℤ) := Int.ceil_le.mpr (by push_cast; linarith)
      omega

/-- C4: for every float sample x in [-1, 1], quantization equals scaling by
32767 with truncation toward zero (the 16-bit cast does not wrap on this
range, and the value stays inside [-32767, 32767]); and the buffer map is
deterministic: equal input buffers yield equal 16-bit sequences. -/
theorem quantize_in_range (x : ℚ) (h1 : -1 ≤ x) (h2 : x ≤ 1) :
    quantizeSample x = truncZ (x * 32767) ∧
    -32767 ≤ quantizeSample x ∧ quantizeSample x ≤ 32767 ∧
    (∀ xs ys : List ℚ, xs = ys → quantizeBuffer xs = quantizeBuffer ys) := by
  obtain ⟨hlo, hhi⟩ := truncZ_bound x h1 h2
  have hc : quantizeSample x = truncZ (x * 32767) :=
    int16cast_eq_of_mem _ (by omega) hhi
  refine ⟨hc, by omega, by omega, ?_⟩
  intro xs ys hxy
  rw [hxy]

/-- Witness for C4 at the concrete sample x = 1/2. -/
theorem quantize_in_range_witness :
    (-1 ≤ (1/2 : ℚ) ∧ (1/2 : ℚ) ≤ 1) ∧
    (quantizeSample (1/2) = truncZ ((1/2) * 32767) ∧
      -32767 ≤ quantizeSample (1/2) ∧ quantizeSample (1/2) ≤ 32767 ∧
      (∀ xs ys : List ℚ, xs = ys → quantizeBuffer xs = quantizeBuffer ys)) :=
  ⟨⟨by norm_num, by norm_num⟩,
    quantize_in_range (1/2) (by norm_num) (by norm_num)⟩

/-- C9: quantization applies no clamping: when x * 32767 truncates to a
value above the int16 maximum (and below 2^16), the cast wraps modulo
2^16, so the stored 16-bit value is the truncation minus 65536 — a
negative number for a sample slightly above +1.0. -/
theorem quantize_wraps (x : ℚ)
    (h1 : 32767 < truncZ (x * 32767)) (h2 : truncZ (x * 32767) < 65536) :
    quantizeSample x = truncZ (x * 32767) - 65536 ∧ quantizeSample x < 0 := by
  unfold quantizeSample int16cast
  omega

/-- Witness for C9 at the concrete sample x = 11/10 (= 1.1), which
quantizes to -29493 instead of saturating at 32767. -/
theorem quantize_wraps_witness :
    (32767 < truncZ ((11/10 : ℚ) * 32767) ∧ truncZ ((11/10 : ℚ) * 32767) < 65536) ∧
    (quantizeSample (11/10) = truncZ ((11/10 : ℚ) * 32767) - 65536 ∧
      quantizeSample (11/10) < 0) := by
  have ht : truncZ ((11/10 : ℚ) * 32767) = 36043 := by
    norm_num [truncZ, Int.floor_eq_iff]
  refine ⟨⟨by omega, by omega⟩, quantize_wraps (11/10) (by omega) (by omega)⟩

/-!
Capture-session state, GUI front-end (`audio_recorder.py`).

The GUI session's mutable state touched by the audio path consists of the
thread-safe queue `self.q`, the accumulated block list `self.frames`, and
the level-meter variable `self.level_var`.  The RMS-level computation
(`np.sqrt(np.mean(indata**2))`, then `min(100, rms*100*10)`) involves a
floating-point square root; it is abstracted here as a parameter
`lf : Block → ℚ`, since the claims only concern WHICH state the callback
writes, not the level value.
-/

structure GuiCapState where
  q : List Block
  frames : List Block
  level : ℚ
deriving DecidableEq, Repr

/-- The GUI driver callback (`audio_recorder.py` lines 145-155): computes
the display level, sets `self.level_var`, and puts a copy of the incoming
block on the queue.  It never touches `self.frames`. -/
def gui_callback (lf : Block → ℚ) (s : GuiCapState) (b : Block) : GuiCapState :=
  { s with level := lf b, q := s.q ++ [b] }

/-- One iteration of the GUI drain loop (`audio_recorder.py` line 188,
`self.frames.append(self.q.get())`): given that the queue front is `b`
followed by `q2`, dequeue `b` and append it to `frames`. -/
def gui_take (s : GuiCapState) (b : Block) (q2 : List Block) : GuiCapState :=
  { s with q := q2, frames := s.frames ++ [b] }

/-- The CLI session's audio state: the CLI front-end has no queue at all;
its only accumulation site is `self.frames`. -/
structure CliCapState where
  frames : List Block
deriving DecidableEq, Repr

/-- The CLI driver callback (`audio_recorder_cli.py` lines 75-80):
`self.frames.append(indata.copy())` — the callback appends a copy of the
block directly onto the accumulated frame list. -/
def cli_callback (s : CliCapState) (b : Block) : CliCapState :=
  { s with frames := s.frames ++ [b] }

/-!
Interleavings of the GUI producer/consumer pair.  `CapTrace lf s pushed t`
holds when state `t` is reachable from `s` by some interleaving of
callback invocations (pushing the blocks `pushed`, in that order) and
drain-loop iterations.
-/

inductive CapTrace (lf : Block → ℚ) : GuiCapState → List Block → GuiCapState → Prop where
  | refl (s : GuiCapState) : CapTrace lf s [] s
  | push {s t : GuiCapState} {rest : List Block} (b : Block)
      (h : CapTrace lf (gui_callback lf s b) rest t) : CapTrace lf s (b :: rest) t
  | pop {s t : GuiCapState} {rest : List Block} (b : Block) (q2 : List Block)
      (hq : s.q = b :: q2) (h : CapTrace lf (gui_take s b q2) rest t) :
      CapTrace lf s rest t

lemma capTrace_frames_q (lf : Block → ℚ) (s : GuiCapState) (pushed : List Block)
    (t : GuiCapState) (htr : CapTrace lf s pushed t) :
    t.frames ++ t.q = s.frames ++ s.q ++ pushed := by
  induction htr with
  | refl s => simp
  | push b h ih =>
    simp only [gui_callback] at ih
    rw [ih]
    simp
  | pop b q2 hq h ih =>
    simp only [gui_take] at ih
    rw [ih, hq]
    simp

/-- C3: starting from an empty session, after any interleaving of pushes
(of the block list `pushed`, in push order) and drain-loop pops that ends
with the queue empty, the accumulated frame list is exactly `pushed` -
and hence its concatenation is the concatenation of the pushed blocks:
no reordering, no loss, no duplication. -/
theorem queue_drain_faithful (lf : Block → ℚ) (level0 : ℚ) (pushed : List Block)
    (t : GuiCapState) (htr : CapTrace lf ⟨[], [], level0⟩ pushed t) (hq : t.q = []) :
    t.frames = pushed ∧ t.frames.join = pushed.join := by
  have h := capTrace_frames_q lf _ pushed t htr
  rw [hq] at h
  simp at h
  exact ⟨h, by rw [h]⟩

/-- Witness for C3: the concrete interleaving push [1,2]; pop; push [3,4];
pop ends with frames = [[1,2],[3,4]] and joined buffer [1,2,3,4]. -/
theorem queue_drain_faithful_witness :
    (⟨[], [[1,2],[3,4]], 0⟩ : GuiCapState).frames = [[1,2],[3,4]] ∧
    (⟨[], [[1,2],[3,4]], 0⟩ : GuiCapState).frames.join = [[1,2],[3,4]].join := by
  refine queue_drain_faithful (fun _ => 0) 0 [[1,2],[3,4]] _ ?_ rfl
  refine CapTrace.push [1,2] ?_
  refine CapTrace.pop [1,2] [] rfl ?_
  refine CapTrace.push [3,4] ?_
  refine CapTrace.pop [3,4] [] rfl ?_
  exact CapTrace.refl _

/-- C2 counterexample: the claim "the callback's only write to session
state is pushing a copy of the block onto the queue, and only the consumer
loop appends to the accumulated block sequence" fails for the CLI
front-end, whose callback appends the block directly to `frames`
(there is no queue): at the empty session and block [1] the callback
changes `frames`. -/
theorem callback_writes_frames_cex :
    ¬ (∀ (s : CliCapState) (b : Block), (cli_callback s b).frames = s.frames) := by
  intro h
  have := h ⟨[]⟩ [1]
  simp [cli_callback] at this

/-- C2 amended: in the GUI front-end the callback never writes the
accumulated block sequence - its writes are the queue push (a copy of the
block appended at the back of the queue) and the level-meter value - and
the drain loop's only write appends the dequeued block to the sequence;
in the CLI front-end there is no queue and the callback itself appends a
copy of each block to the accumulated sequence. -/
theorem callback_state_discipline :
    (∀ (lf : Block → ℚ) (s : GuiCapState) (b : Block),
        (gui_callback lf s b).frames = s.frames ∧
        (gui_callback lf s b).q = s.q ++ [b]) ∧
    (∀ (s : GuiCapState) (b : Block) (q2 : List Block),
        (gui_take s b q2).frames = s.frames ++ [b] ∧
        (gui_take s b q2).level = s.level) ∧
    (∀ (s : CliCapState) (b : Block),
        (cli_callback s b).frames = s.frames ++ [b]) := by
  refine ⟨fun lf s b => ⟨rfl, rfl⟩, fun s b q2 => ⟨rfl, rfl⟩, fun s b => rfl⟩

/-!
File output model.

`scipy.io.wavfile.write(path, rate, a)` with an int16 array writes a RIFF
WAV whose header carries the given sample rate, the channel count taken
from the array's second dimension, and a 16-bit sample width.  Channel
count is threaded explicitly here (blocks are flat interleaved lists),
mirroring the session's configured channel count, which is the array's
second dimension throughout both front-ends.
-/

structure WavFile where
  sampleRate : ℕ
  channels : ℕ
  bitDepth : ℕ
  data : List ℤ
deriving DecidableEq, Repr

/-- `wavfile.write(path, self.samplerate, np.int16(audio * 32767))`
(`audio_recorder.py` lines 360-361, `audio_recorder_cli.py` lines
287-288 and 322-323): a 16-bit PCM WAV at the session sample rate. -/
def wavfile_write (rate ch : ℕ) (audio : List ℚ) : WavFile :=
  ⟨rate, ch, 16, quantizeBuffer audio⟩

/-- Outcome of one `subprocess.run(['ffmpeg', ...], timeout=60)` call. -/
inductive EncoderRun where
  | exit (code : ℕ)
  | timedOut
deriving DecidableEq, Repr

/-- Observable result of the CLI save path: return value, files written
or removed, and user-facing reports. -/
structure CliSaveResult where
  success : Bool
  wavOut : Option WavFile
  aacWritten : Bool
  tempWavWritten : Bool
  tempWavRemoved : Bool
  reportedNothing : Bool
  reportedFallback : Bool
  reportedEncoderFailure : Bool
deriving DecidableEq, Repr

/-- `_save_as_wav` (`audio_recorder_cli.py` lines 281-305): quantize and
write the WAV, return True. -/
def save_as_wav (rate ch : ℕ) (audio : List ℚ) : CliSaveResult :=
  { success := true
    wavOut := some (wavfile_write rate ch audio)
    aacWritten := false
    tempWavWritten := false
    tempWavRemoved := false
    reportedNothing := false
    reportedFallback := false
    reportedEncoderFailure := false }

/-- `_save_as_aac` (`audio_recorder_cli.py` lines 307-380).  If ffmpeg is
missing: print the fallback message and delegate to `_save_as_wav`
(lines 309-313).  Otherwise write the temporary WAV, run ffmpeg, and
- on exit code 0: remove the temp WAV, report success (lines 348-369);
- on a non-zero exit code: print the ffmpeg error and return False
  BEFORE the `os.remove(temp_wav)` on line 353, so the temp WAV stays
  (lines 348-350);
- on timeout: remove the temp WAV and return False (lines 371-375). -/
def save_as_aac (hasFfmpeg : Bool) (enc : EncoderRun) (rate ch : ℕ)
    (audio : List ℚ) : CliSaveResult :=
  if hasFfmpeg = false then
    { save_as_wav rate ch audio with reportedFallback := true }
  else
    match enc with
    | .exit 0 =>
      { success := true
        wavOut := none
        aacWritten := true
        tempWavWritten := true
        tempWavRemoved := true
        reportedNothing := false
        reportedFallback := false
        reportedEncoderFailure := false }
    | .exit (_ + 1) =>
      { success := false
        wavOut := none
        aacWritten := false
        tempWavWritten := true
        tempWavRemoved := false
        reportedNothing := false
        reportedFallback := false
        reportedEncoderFailure := true }
    | .timedOut =>
      { success := false
        wavOut := none
        aacWritten := false
        tempWavWritten := true
        tempWavRemoved := true
        reportedNothing := false
        reportedFallback := false
        reportedEncoderFailure := true }

/-- `save_recording` (`audio_recorder_cli.py` lines 243-279): with no
captured frames, print "No audio frames to save!" and return False
(lines 245-247); otherwise concatenate the frames and dispatch on the
output extension. -/
def cli_save_recording (hasFfmpeg : Bool) (enc : EncoderRun) (rate ch : ℕ)
    (frames : List Block) (outputPath : String) : CliSaveResult :=
  if frames.isEmpty then
    { success := false
      wavOut := none
      aacWritten := false
      tempWavWritten := false
      tempWavRemoved := false
      reportedNothing := true
      reportedFallback := false
      reportedEncoderFailure := false }
  else
    let audio := frames.flatten
    if (outputPath.toLower.endsWith ".m4a" || outputPath.toLower.endsWith ".aac") then
      save_as_aac hasFfmpeg enc rate ch audio
    else
      save_as_wav rate ch audio

/-- User-visible messages of the GUI stop/flush path. -/
inductive GuiMsg where
  | warnNothingRecorded
  | warnSaveCancelled
  | infoSaved
deriving DecidableEq, Repr

/-- Observable result of the GUI stop/flush path. -/
structure GuiFlushResult where
  file : Option WavFile
  msg : GuiMsg
  statusLabel : String
deriving DecidableEq, Repr

/-- The flush part of `stop_recording` (`audio_recorder.py` lines
324-395): with no captured frames, show "No audio was recorded." and
return to the Ready state without writing a file (lines 324-328);
otherwise concatenate, ask for a save path, and either write the
quantized WAV (path chosen) or discard (dialog cancelled), returning to
Ready in both cases. -/
def gui_stop_flush (rate ch : ℕ) (frames : List Block)
    (savePath : Option String) : GuiFlushResult :=
  if frames.isEmpty then
    ⟨none, .warnNothingRecorded, "Ready"⟩
  else
    match savePath with
    | some _ => ⟨some (wavfile_write rate ch frames.flatten), .infoSaved, "Ready"⟩
    | none => ⟨none, .warnSaveCancelled, "Ready"⟩

/-- C5: stopping with zero captured blocks, in either front-end, writes
no output file, reports the nothing-recorded condition, and leaves the
system back in its idle/ready state (GUI status label "Ready"; the CLI
save step returns failure having produced nothing). -/
theorem flush_empty_no_file (rate ch : ℕ) (savePath : Option String)
    (hasFfmpeg : Bool) (enc : EncoderRun) (outputPath : String) :
    gui_stop_flush rate ch [] savePath = ⟨none, .warnNothingRecorded, "Ready"⟩ ∧
    (cli_save_recording hasFfmpeg enc rate ch [] outputPath).success = false ∧
    (cli_save_recording hasFfmpeg enc rate ch [] outputPath).wavOut = none ∧
    (cli_save_recording hasFfmpeg enc rate ch [] outputPath).aacWritten = false ∧
    (cli_save_recording hasFfmpeg enc rate ch [] outputPath).tempWavWritten = false ∧
    (cli_save_recording hasFfmpeg enc rate ch [] outputPath).reportedNothing = true := by
  refine ⟨rfl, ?_, ?_, ?_, ?_, ?_⟩ <;> simp [cli_save_recording]

/-- C7: whenever ffmpeg is unavailable and a compressed (AAC/M4A) output
is requested, the save falls back to writing a WAV whose header carries
the session sample rate, channel count and 16-bit depth, and the
substitution is reported. -/
theorem aac_fallback_to_wav (enc : EncoderRun) (rate ch : ℕ) (audio : List ℚ) :
    (save_as_aac false enc rate ch audio).wavOut =
      some ⟨rate, ch, 16, quantizeBuffer audio⟩ ∧
    (save_as_aac false enc rate ch audio).reportedFallback = true ∧
    (save_as_aac false enc rate ch audio).success = true := by
  refine ⟨rfl, rfl, rfl⟩

/-- C10: if ffmpeg runs but exits non-zero, the CLI save reports failure
and returns with no WAV fallback and with the temporary intermediate WAV
left on disk; by contrast, on a timeout the temporary WAV is removed. -/
theorem aac_nonzero_exit_leaves_temp (c : ℕ) (hc : c ≠ 0) (rate ch : ℕ)
    (audio : List ℚ) :
    (save_as_aac true (.exit c) rate ch audio).success = false ∧
    (save_as_aac true (.exit c) rate ch audio).wavOut = none ∧
    (save_as_aac true (.exit c) rate ch audio).tempWavWritten = true ∧
    (save_as_aac true (.exit c) rate ch audio).tempWavRemoved = false ∧
    (save_as_aac true (.exit c) rate ch audio).reportedEncoderFailure = true ∧
    (save_as_aac true .timedOut rate ch audio).tempWavRemoved = true ∧
    (save_as_aac true .timedOut rate ch audio).success = false := by
  obtain ⟨d, rfl⟩ : ∃ d, c = d + 1 := ⟨c - 1, by omega⟩
  exact ⟨rfl, rfl, rfl, rfl, rfl, rfl, rfl⟩

/-- Witness for C10 at exit code 1, sample session 48000 Hz stereo. -/
theorem aac_nonzero_exit_leaves_temp_witness :
    (1 : ℕ) ≠ 0 ∧
    ((save_as_aac true (.exit 1) 48000 2 []).success = false ∧
      (save_as_aac true (.exit 1) 48000 2 []).wavOut = none ∧
      (save_as_aac true (.exit 1) 48000 2 []).tempWavWritten = true ∧
      (save_as_aac true (.exit 1) 48000 2 []).tempWavRemoved = false ∧
      (save_as_aac true (.exit 1) 48000 2 []).reportedEncoderFailure = true ∧
      (save_as_aac true .timedOut 48000 2 []).tempWavRemoved = true ∧
      (save_as_aac true .timedOut 48000 2 []).success = false) :=
  ⟨by decide, aac_nonzero_exit_leaves_temp 1 (by decide) 48000 2 []⟩

/-!
Stream-open parameters.

`audio_recorder.py` lines 177-184 open `sd.InputStream(samplerate=...,
device=..., channels=..., dtype=self.dtype, callback=..., blocksize=1024)`.
`audio_recorder_cli.py` lines 201-207 open `sd.InputStream(samplerate=...,
device=..., channels=..., dtype=self.dtype, callback=...)` with NO
blocksize argument (the library default).  Both classes set
`self.dtype = 'float32'` at construction and never reassign it.
-/

structure StreamParams where
  samplerate : ℕ
  device : ℕ
  channels : ℕ
  dtype : String
  blocksize : Option ℕ
deriving DecidableEq, Repr

/-- Parameters of the GUI stream open (`audio_recorder.py` 177-184). -/
def gui_stream_params (rate dev ch : ℕ) : StreamParams :=
  ⟨rate, dev, ch, "float32", some 1024⟩

/-- Parameters of the CLI stream open (`audio_recorder_cli.py` 201-207):
no `blocksize` keyword is passed. -/
def cli_stream_params (rate dev ch : ℕ) : StreamParams :=
  ⟨rate, dev, ch, "float32", none⟩

/-- C8 counterexample: the claim that every capture session of BOTH
front-ends opens its stream with a fixed block size of 1024 frames fails:
the CLI stream open passes no block size (checked at the concrete session
48000 Hz, device 0, stereo). -/
theorem stream_blocksize_cex :
    ¬ (∀ rate dev ch : ℕ,
        (gui_stream_params rate dev ch).blocksize = some 1024 ∧
        (cli_stream_params rate dev ch).blocksize = some 1024) := by
  intro h
  have := (h 48000 0 2).2
  simp [cli_stream_params] at this

/-- C8 amended: every capture session uses the 32-bit float sample format
in both front-ends; the GUI opens its stream with a fixed block size of
1024 frames, while the CLI opens its stream with no block size argument
(the library default), not a fixed 1024. -/
theorem stream_params_amended (rate dev ch : ℕ) :
    (gui_stream_params rate dev ch).blocksize = some 1024 ∧
    (gui_stream_params rate dev ch).dtype = "float32" ∧
    (cli_stream_params rate dev ch).dtype = "float32" ∧
    (cli_stream_params rate dev ch).blocksize = none :=
  ⟨rfl, rfl, rfl, rfl⟩

/-!
Sample-rate negotiation.

GUI (`audio_recorder.py` lines 238-247): `sd.check_input_settings` on the
requested rate; on `PortAudioError` substitute `device_info
['default_samplerate']` and show the "Sample Rate Adjusted" message box.
CLI (`audio_recorder_cli.py` lines 122-131): same check inside the rate
prompt loop; on `PortAudioError` substitute the device default and print
the substitution.  Driver acceptance is modelled by the predicate
`supported`; the returned Bool records whether the substitution was
surfaced to the user.
-/

def negotiate_samplerate (supported : ℕ → Bool) (requested deflt : ℕ) : ℕ × Bool :=
  if supported requested then (requested, false) else (deflt, true)

/-- One event at a CLI prompt.  A typed line is recorded by what
`int(line.strip())` would yield: `num n` for a line parsing as the integer
`n`, `junk` for a non-empty line raising `ValueError`, `blank` for an
empty/whitespace-only line (for which the prompts substitute their
documented defaults before parsing).  `interrupt` is a Ctrl+C
(`KeyboardInterrupt`). -/
inductive Ev where
  | num (n : ℤ)
  | junk
  | blank
  | interrupt
deriving DecidableEq, Repr

/-- Result of one interactive CLI prompt loop: a value plus the unread
input events, a `sys.exit(code)`, or an exception that escapes the loop
(EOF on stdin) to `run`'s generic handler. -/
inductive PromptR (α : Type) where
  | ok (a : α) (rest : List Ev)
  | sysExit (code : ℕ)
  | uncaught
deriving DecidableEq, Repr

/-- The dict `{1: 44100, 2: 48000, 3: 96000}.get`
(`audio_recorder_cli.py` line 118). -/
def sample_rates_get (n : ℤ) : Option ℕ :=
  if n = 1 then some 44100
  else if n = 2 then some 48000
  else if n = 3 then some 96000
  else none

/-- The sample-rate prompt loop of `configure_recording`
(`audio_recorder_cli.py` lines 115-138): blank input defaults to "2";
unparsable input (`ValueError`) and out-of-menu numbers re-prompt;
a supported menu rate is accepted as-is; an unsupported one is replaced by
the device default (Bool `true` = substitution printed); Ctrl+C calls
`sys.exit(0)`. -/
def rate_loop (supported : ℕ → Bool) (deflt : ℕ) : List Ev → PromptR (ℕ × Bool)
  | [] => .uncaught
  | .interrupt :: _ => .sysExit 0
  | .junk :: rest => rate_loop supported deflt rest
  | .blank :: rest =>
    match sample_rates_get 2 with
    | none => rate_loop supported deflt rest
    | some r =>
      if supported r then .ok (r, false) rest else .ok (deflt, true) rest
  | .num n :: rest =>
    match sample_rates_get n with
    | none => rate_loop supported deflt rest
    | some r =>
      if supported r then .ok (r, false) rest else .ok (deflt, true) rest

/-- C6: a capture session that requests a sample rate the device rejects
substitutes the device's reported default and surfaces the substitution,
then proceeds with the substituted rate - in the GUI's `start_recording`
negotiation and in the CLI's sample-rate prompt loop. -/
theorem samplerate_fallback (supported : ℕ → Bool) (deflt : ℕ) :
    (∀ requested : ℕ, supported requested = false →
      negotiate_samplerate supported requested deflt = (deflt, true)) ∧
    (∀ (n : ℤ) (r : ℕ) (rest : List Ev),
      sample_rates_get n = some r → supported r = false →
      rate_loop supported deflt (Ev.num n :: rest) = .ok (deflt, true) rest) := by
  constructor
  · intro requested h
    simp [negotiate_samplerate, h]
  · intro n r rest h2 h3
    simp [rate_loop, h2, h3]

/-- Witness for C6: a device rejecting every rate, requested 96000 Hz,
device default 44100 Hz, CLI menu choice 3 (= 96000 Hz). -/
theorem samplerate_fallback_witness :
    negotiate_samplerate (fun _ => false) 96000 44100 = (44100, true) ∧
    rate_loop (fun _ => false) 44100 [Ev.num 3] = .ok (44100, true) [] := by
  have h := samplerate_fallback (fun _ => false) 44100
  exact ⟨h.1 96000 rfl, h.2 3 96000 [] (by decide) rfl⟩

/-- A device descriptor as listed by `list_devices`
(`audio_recorder_cli.py` lines 56-73). -/
structure AudioDevice where
  name : String
  maxInputChannels : ℕ
  defaultSamplerate : ℕ
deriving DecidableEq, Repr

/-- `select_device` (`audio_recorder_cli.py` lines 82-100): loop reading a
device number; an unparsable line (`ValueError`) or an index not in the
list re-prompts; Ctrl+C prints "Cancelled by user" and calls
`sys.exit(0)` (lines 98-100). -/
def select_device (devs : List (ℕ × AudioDevice)) : List Ev → PromptR (ℕ × AudioDevice)
  | [] => .uncaught
  | .interrupt :: _ => .sysExit 0
  | .junk :: rest => select_device devs rest
  | .blank :: rest => select_device devs rest
  | .num n :: rest =>
    match devs.find? (fun p => ((p.1 : ℤ) == n)) with
    | some p => .ok p rest
    | none => select_device devs rest

/-- The channel prompt loop of `configure_recording`
(`audio_recorder_cli.py` lines 140-167): blank input defaults to 2 when
the device has ≥ 2 input channels, else 1; choice 1 is always accepted,
choice 2 only when the device has ≥ 2 channels; anything else re-prompts;
Ctrl+C calls `sys.exit(0)` (lines 165-167). -/
def channel_loop (maxCh : ℕ) : List Ev → PromptR ℕ
  | [] => .uncaught
  | .interrupt :: _ => .sysExit 0
  | .junk :: rest => channel_loop maxCh rest
  | .blank :: rest => if 2 ≤ maxCh then .ok 2 rest else .ok 1 rest
  | .num n :: rest =>
    if n = 1 then .ok 1 rest
    else if n = 2 ∧ 2 ≤ maxCh then .ok 2 rest
    else channel_loop maxCh rest

/-- Outcome of the `record` loop (`audio_recorder_cli.py` lines 182-241):
a Ctrl+C during recording is caught, prints "Recording stopped by user",
and `record` returns True just as a normal completion does (lines
226-241); only an unexpected exception makes it return False. -/
inductive RecOutcome where
  | completed
  | interrupted
  | errored
deriving DecidableEq, Repr

/-- Return value of `record` for each outcome. -/
def record_ok : RecOutcome → Bool
  | .errored => false
  | _ => true

/-- Process exit code of one CLI run (`run`, `audio_recorder_cli.py`
lines 382-422, wrapped by `main`'s `sys.exit(recorder.run())`):
empty device list → 1; a `sys.exit` from a prompt loop terminates the
process with that code, bypassing `run`'s handlers; an exception escaping
a prompt loop is caught by `run`'s generic handler → 1; Ctrl+C at the
output-filename prompt (line 400) is caught by `run`'s
`except KeyboardInterrupt` → 1; a failed `record` or `save_recording`
→ 1; otherwise 0.  `record`'s outcome and the save success are inputs of
the model (they depend on the audio driver and filesystem). -/
def cli_process_exit (devs : List (ℕ × AudioDevice)) (supported : ℕ → Bool)
    (rec : RecOutcome) (saveOk : Bool) (script : List Ev) : ℕ :=
  if devs.isEmpty then 1
  else
    match select_device devs script with
    | .sysExit c => c
    | .uncaught => 1
    | .ok (_, dev) rest =>
      match rate_loop supported dev.defaultSamplerate rest with
      | .sysExit c => c
      | .uncaught => 1
      | .ok _ rest2 =>
        match channel_loop dev.maxInputChannels rest2 with
        | .sysExit c => c
        | .uncaught => 1
        | .ok _ rest3 =>
          match rest3 with
          | [] => 1
          | .interrupt :: _ => 1
          | _ :: _ =>
            if record_ok rec = false then 1
            else if saveOk = false then 1
            else 0

/-- A sample one-device environment for the concrete CLI runs. -/
def sampleDevs : List (ℕ × AudioDevice) := [(0, ⟨"Mic", 2, 48000⟩)]

/-- C1 counterexample: cancelling at the device-selection prompt (Ctrl+C
as the first input event, with one device present) terminates the process
with exit code 0, not 1 as claimed: `select_device` calls `sys.exit(0)`. -/
theorem cli_cancel_exit_code_cex :
    cli_process_exit sampleDevs (fun _ => true) .completed true [Ev.interrupt] = 0 ∧
    cli_process_exit sampleDevs (fun _ => true) .completed true [Ev.interrupt] ≠ 1 := by
  constructor <;> decide

/-- C1 amended: the CLI process exits 0 on success; Ctrl+C at the device,
sample-rate, or channel prompt exits the process with code 0 (those
handlers call sys.exit(0)); Ctrl+C during recording is the documented
stop mechanism, after which the run saves and exits 0 on success; Ctrl+C
at the output-filename prompt, a recording error, or a save failure exit
with code 1. -/
theorem cli_exit_codes :
    cli_process_exit sampleDevs (fun _ => true) .completed true
      [.num 0, .num 2, .num 2, .blank] = 0 ∧
    cli_process_exit sampleDevs (fun _ => true) .completed true [.interrupt] = 0 ∧
    cli_process_exit sampleDevs (fun _ => true) .completed true
      [.num 0, .interrupt] = 0 ∧
    cli_process_exit sampleDevs (fun _ => true) .completed true
      [.num 0, .num 2, .interrupt] = 0 ∧
    cli_process_exit sampleDevs (fun _ => true) .completed true
      [.num 0, .num 2, .num 2, .interrupt] = 1 ∧
    cli_process_exit sampleDevs (fun _ => true) .interrupted true
      [.num 0, .num 2, .num 2, .blank] = 0 ∧
    cli_process_exit sampleDevs (fun _ => true) .errored true
      [.num 0, .num 2, .num 2, .blank] = 1 ∧
    cli_process_exit sampleDevs (fun _ => true) .completed false
      [.num 0, .num 2, .num 2, .blank] = 1 ∧
    cli_process_exit [] (fun _ => true) .completed true [] = 1 := by
  refine ⟨?_, ?_, ?_, ?_, ?_, ?_, ?_, ?_, ?_⟩ <;> decide
